import Mathlib

/-!
Verification of the Energy Point Log module
(`frappe/social/doctype/energy_point_log/energy_point_log.py`).

The ledger is modelled as a `List Entry` in insertion order.  Each public
operation of the module is translated into a pure function that takes the
current ledger (and the ambient session user / clock) and returns its result
together with the new ledger.  Side effects that leave the ledger (realtime
alerts, emails, cache invalidation) are returned as explicit values.
-/

namespace EnergyPointLog

/-- One row of the `tabEnergy Point Log` table.  Field names follow the
doctype; `type` is kept as a `String` because the source compares it against
string literals and has a fall-through branch for unknown values.  Optional
text fields that the source only ever concatenates are modelled as `String`
(Python `None` rendering is irrelevant to the claims); `rule` stays an
`Option String` because it takes part in the natural dedup key.  `creation`
is a timestamp in abstract units. -/
structure Entry where
  name : String
  user : String
  owner : String
  type : String
  points : Int
  reason : String
  reference_doctype : String
  reference_name : String
  rule : Option String
  reverted : Bool
  revert_of : Option String
  creation : Nat
deriving DecidableEq

/-- Modelled from the spec: the persistence layer assigns each inserted
document a fresh primary name (document naming is not part of src/); it is
modelled as a name derived from the current table size. -/
def new_name (db : List Entry) : String :=
  "EPL-" ++ toString db.length

/-- `EnergyPointLog.validate`: reject self-review at write time
(energy_point_log.py lines 13-15). -/
def validate (e : Entry) : Except String Unit :=
  if (e.type = "Appreciation" ∨ e.type = "Criticism") ∧ e.user = e.owner then
    Except.error "You cannot give review points to yourself"
  else
    Except.ok ()

/-- `Document.insert` as used by this module: run `validate`, then append the
row to the table. -/
def insert_entry (db : List Entry) (e : Entry) : Except String (List Entry) :=
  match validate e with
  | Except.error m => Except.error m
  | Except.ok _ => Except.ok (db ++ [e])

/-- The alert payload `{message, indicator}` composed by `get_alert_dict`. -/
structure Alert where
  message : String
  indicator : String
deriving DecidableEq

/-- An outgoing `frappe.sendmail` call of `send_review_mail`. -/
structure Email where
  recipients : List String
  subject : String
  message : String
  header_indicator : String
deriving DecidableEq

/-- Modelled from the spec: `frappe.utils.get_fullname` (frappe repository
code not included under src/) resolves a user id to a display name; modelled
as the identity on user ids. -/
def get_fullname (user : String) : String := user

/-- Modelled from the spec: `frappe.get_desk_link` (not included under src/)
renders a desk link for a (doctype, name) pair. -/
def get_desk_link (doctype name : String) : String :=
  doctype ++ " " ++ name

/-- Modelled from the spec: `frappe.bold` (not included under src/) wraps its
argument in bold markup. -/
def bold (s : String) : String := "<b>" ++ s ++ "</b>"

/-- `get_alert_dict` (energy_point_log.py lines 26-58): compose the alert by
entry type; `Review` and unknown types fall through to the empty dict,
modelled as `none`. -/
def get_alert_dict (e : Entry) : Option Alert :=
  if e.type = "Auto" then
    some { message := "You gained " ++ bold (toString e.points) ++ " points",
           indicator := "green" }
  else if e.type = "Appreciation" then
    some { message := get_fullname e.owner ++ " appreciated your work on " ++
             get_desk_link e.reference_doctype e.reference_name ++ " with " ++
             bold (toString e.points) ++ " points",
           indicator := "green" }
  else if e.type = "Criticism" then
    some { message := get_fullname e.owner ++ " criticized your work on " ++
             get_desk_link e.reference_doctype e.reference_name ++ " with " ++
             bold (toString e.points) ++ " points",
           indicator := "red" }
  else if e.type = "Revert" then
    some { message := get_fullname e.owner ++ " reverted your points on " ++
             get_desk_link e.reference_doctype e.reference_name,
           indicator := "red" }
  else
    none

/-- `send_review_mail` (lines 60-65): email only for `Appreciation` and
`Criticism`; subject by the sign of `points`; body is the alert message
followed by the reason paragraph. -/
def send_review_mail (e : Entry) (message_dict : Alert) : Option Email :=
  if e.type = "Appreciation" ∨ e.type = "Criticism" then
    some { recipients := [e.user],
           subject := if 0 < e.points then "You gained some energy points"
                      else "You lost some energy points",
           message := message_dict.message ++ "<p>" ++ e.reason ++ "</p>",
           header_indicator := message_dict.indicator }
  else
    none

/-- The observable side effects of `EnergyPointLog.after_insert`
(lines 17-24): optional realtime alert, optional email, unconditional cache
row invalidation for the affected user and an `update_points` broadcast. -/
structure InsertEffects where
  alert : Option Alert
  email : Option Email
  cache_hdel : String
  update_points_broadcast : Bool
deriving DecidableEq

/-- `EnergyPointLog.after_insert` (lines 17-24). -/
def after_insert (e : Entry) : InsertEffects :=
  match get_alert_dict e with
  | some a =>
      { alert := some a, email := send_review_mail e a,
        cache_hdel := e.user, update_points_broadcast := true }
  | none =>
      { alert := none, email := none,
        cache_hdel := e.user, update_points_broadcast := true }

/-- The condition / bound-value construction of
`get_user_energy_and_review_points` (lines 111-119), kept at the SQL string
level because this is where the source appends `conditions` itself — not
`from_date` — to the bound `values` list. -/
def buildConditions (user : Option String) (from_date : Option String) :
    String × List String :=
  let start : String × List String := ("", [])
  let afterUser : String × List String :=
    match user with
    | some u => ("WHERE `user` = %s", start.2 ++ [u])
    | none => start
  match from_date with
  | some _ =>
      let c :=
        afterUser.1 ++ (if afterUser.1 = "" then "WHERE" else "AND") ++
          " `creation` >= %s"
      (c, afterUser.2 ++ [c])
  | none => afterUser

/-- Modelled from the spec: `frappe.utils.add_days` (not under src/) shifts a
date by a signed number of days; dates are modelled as integer day numbers. -/
def add_days (date : Int) (days : Int) : Int := date + days

/-- The query construction performed by `send_summary` (lines 207-221): the
trailing window start is computed with `add_days`, then
`get_user_energy_and_review_points` is invoked with that `from_date`, which
builds the conditions and bound values through `buildConditions`. -/
def send_summary_sql (today : Int) (timespan : String) : String × List String :=
  let from_date :=
    if timespan = "Monthly" then add_days today (-30) else add_days today (-7)
  buildConditions none (some (toString from_date))

/-- One aggregate row of `get_user_energy_and_review_points`
(lines 121-131): the three `SUM(CASE WHEN ...)` columns and the grouped
`user`. -/
structure Totals where
  energy_points : Int
  review_points : Int
  given_points : Int
  user : String
deriving DecidableEq

/-- The `CASE WHEN type != 'Review' THEN points ELSE 0 END` summand. -/
def entry_energy (e : Entry) : Int :=
  if e.type ≠ "Review" then e.points else 0

/-- The `CASE WHEN type = 'Review' THEN points ELSE 0 END` summand. -/
def entry_review (e : Entry) : Int :=
  if e.type = "Review" then e.points else 0

/-- The `CASE WHEN type = 'Review' AND points < 0 THEN ABS(points) ELSE 0
END` summand. -/
def entry_given (e : Entry) : Int :=
  if e.type = "Review" ∧ e.points < 0 then (e.points.natAbs : Int) else 0

/-- The aggregate row produced by `GROUP BY user` for one user over the
(already condition-filtered) rows. -/
def totals_for (rows : List Entry) (u : String) : Totals :=
  { energy_points := ((rows.filter (fun e => e.user == u)).map entry_energy).sum,
    review_points := ((rows.filter (fun e => e.user == u)).map entry_review).sum,
    given_points := ((rows.filter (fun e => e.user == u)).map entry_given).sum,
    user := u }

/-- The `ORDER BY energy_points DESC` relation. -/
def totalsGE (a b : Totals) : Prop :=
  b.energy_points ≤ a.energy_points

instance : DecidableRel totalsGE :=
  fun a b => inferInstanceAs (Decidable (b.energy_points ≤ a.energy_points))

instance : IsTotal Totals totalsGE :=
  ⟨fun a b => le_total b.energy_points a.energy_points⟩

instance : IsTrans Totals totalsGE :=
  ⟨fun _ _ _ h1 h2 => le_trans h2 h1⟩

/-- `get_user_energy_and_review_points` with `as_dict=False` (lines 110-134),
restricted to the user filter: one aggregate row per user occurring in the
filtered rows, ordered descending by `energy_points`.  (The `from_date`
filter is modelled separately by `buildConditions`, because the source binds
the conditions string instead of the date as the SQL parameter.) -/
def get_user_energy_and_review_points_list (db : List Entry)
    (user : Option String) : List Totals :=
  let rows : List Entry := match user with
    | some u => db.filter (fun e => e.user == u)
    | none => db
  List.insertionSort totalsGE
    (((rows.map Entry.user).dedup).map (totals_for rows))

/-- `get_energy_points` (lines 101-107): run the aggregate filtered to one
user and look that user up in the dict form (`points.get(user, {})`); a user
with no rows yields the empty dict, whose `review_points` attribute is
Python `None` — modelled as `none`. -/
def get_energy_points (db : List Entry) (user : String) : Option Totals :=
  (get_user_energy_and_review_points_list db (some user)).find?
    (fun t => t.user == user)

/-- The fields `review` passes to `create_energy_points_log` as the `doc`
dict (the dict carries no `rule` key, hence `rule` is optional). -/
structure LogFields where
  user : String
  rule : Option String
  type : String
  reason : String
  points : Int
deriving DecidableEq

/-- The natural-key filter dict used by the `frappe.db.exists` check in
`create_energy_points_log` (lines 69-74). -/
def matchKey (user : String) (rule : Option String) (rd rn : String)
    (e : Entry) : Bool :=
  e.user == user && e.rule == rule && e.reference_doctype == rd &&
    e.reference_name == rn

/-- The `frappe.db.exists` check of `create_energy_points_log`. -/
def log_exists (db : List Entry) (user : String) (rule : Option String)
    (rd rn : String) : Bool :=
  db.any (matchKey user rule rd rn)

/-- Number of ledger rows matching a natural key. -/
def countKey (db : List Entry) (user : String) (rule : Option String)
    (rd rn : String) : Nat :=
  (db.filter (matchKey user rule rd rn)).length

/-- The new document built by `create_energy_points_log` (lines 78-82):
reference fields from the arguments, the rest updated from the `doc` dict,
`owner` stamped with the session user by the framework. -/
def new_log_entry (db : List Entry) (owner : String) (now : Nat)
    (rd rn : String) (doc : LogFields) : Entry :=
  { name := new_name db, user := doc.user, owner := owner, type := doc.type,
    points := doc.points, reason := doc.reason, reference_doctype := rd,
    reference_name := rn, rule := doc.rule, reverted := false,
    revert_of := none, creation := now }

/-- `create_energy_points_log` (lines 67-83): silently return nothing when an
entry with the same `(user, rule, reference_doctype, reference_name)` exists,
otherwise insert and return the new document. -/
def create_energy_points_log (db : List Entry) (owner : String) (now : Nat)
    (rd rn : String) (doc : LogFields) :
    Except String (List Entry × Option Entry) :=
  if log_exists db doc.user doc.rule rd rn then
    Except.ok (db, none)
  else
    match insert_entry db (new_log_entry db owner now rd rn doc) with
    | Except.error m => Except.error m
    | Except.ok db2 => Except.ok (db2, some (new_log_entry db owner now rd rn doc))

/-- The document built by `create_review_points_log` (lines 85-94). -/
def new_review_entry (db : List Entry) (owner : String) (now : Nat)
    (user : String) (points : Int) (reason : String) (doctype docname : String) :
    Entry :=
  { name := new_name db, user := user, owner := owner, type := "Review",
    points := points, reason := reason, reference_doctype := doctype,
    reference_name := docname, rule := none, reverted := false,
    revert_of := none, creation := now }

/-- `create_review_points_log` (lines 85-94): always insert a `Review`-type
entry (no dedup key). -/
def create_review_points_log (db : List Entry) (owner : String) (now : Nat)
    (user : String) (points : Int) (reason : String)
    (doctype docname : String) : Except String (List Entry × Entry) :=
  match insert_entry db (new_review_entry db owner now user points reason doctype docname) with
  | Except.error m => Except.error m
  | Except.ok db2 =>
      Except.ok (db2, new_review_entry db owner now user points reason doctype docname)

/-- The `doc` argument of `review` after the duck-typed coercion on line 145:
only its `doctype` and `name` are read. -/
structure RefDoc where
  doctype : String
  name : String
deriving DecidableEq

/-- Outcome of a `review` call.  `typeError` is the Python `TypeError` raised
by `None < int` when the caller has no aggregate row; `warned` is the
`frappe.msgprint` + bare `return`; `threw` is a propagated `frappe.throw`;
`attrError` is the `AttributeError` raised on line 163 when
`create_energy_points_log` returned `None` (duplicate natural key) and
`review_doc.doctype` is accessed. -/
inductive ReviewResult where
  | typeError
  | warned
  | threw (msg : String)
  | attrError
  | ok (e : Entry)
deriving DecidableEq

/-- `review` (lines 142-167). -/
def review (db : List Entry) (session_user : String) (now : Nat)
    (doc : RefDoc) (points : Int) (to_user reason review_type : String) :
    ReviewResult × List Entry :=
  match get_energy_points db session_user with
  | none => (ReviewResult.typeError, db)
  | some row =>
    if row.review_points < (Int.natAbs points : Int) then
      (ReviewResult.warned, db)
    else
      match create_energy_points_log db session_user now doc.doctype doc.name
          { user := to_user, rule := none, type := review_type, reason := reason,
            points := if review_type = "Appreciation" then (Int.natAbs points : Int)
                      else -(Int.natAbs points : Int) } with
      | Except.error m => (ReviewResult.threw m, db)
      | Except.ok (db1, none) => (ReviewResult.attrError, db1)
      | Except.ok (db1, some review_doc) =>
        match create_review_points_log db1 session_user now session_user
            (-(Int.natAbs points : Int)) reason "Energy Point Log" review_doc.name with
        | Except.error m => (ReviewResult.threw m, db1)
        | Except.ok (db2, _) => (ReviewResult.ok review_doc, db2)

/-- Outcome of a `revert` call. -/
inductive RevertResult where
  | notFound
  | threw (msg : String)
  | ok (e : Entry)
deriving DecidableEq

/-- The `doc_to_revert.save()` step of `revert` (lines 185-186): persist the
`reverted = 1` flag on the loaded document. -/
def updDb (db : List Entry) (n : String) (d : Entry) : List Entry :=
  db.map (fun e => if e.name == n then { d with reverted := true } else e)

/-- The compensating document built by `revert` (lines 188-197). -/
def new_revert_entry (db1 : List Entry) (d : Entry) (owner : String)
    (now : Nat) (reason : String) : Entry :=
  { name := new_name db1, user := d.user, owner := owner, type := "Revert",
    points := -d.points, reason := reason,
    reference_doctype := d.reference_doctype,
    reference_name := d.reference_name, rule := none, reverted := false,
    revert_of := some d.name, creation := now }

/-- `revert` (lines 177-199). -/
def revert (db : List Entry) (session_user : String) (now : Nat)
    (n reason : String) : RevertResult × List Entry :=
  match db.find? (fun e => e.name == n) with
  | none => (RevertResult.notFound, db)
  | some d =>
    if d.type ≠ "Auto" then
      (RevertResult.threw "This document cannot be reverted", db)
    else
      match insert_entry (updDb db n d) (new_revert_entry (updDb db n d) d session_user now reason) with
      | Except.error m => (RevertResult.threw m, updDb db n d)
      | Except.ok db2 =>
          (RevertResult.ok (new_revert_entry (updDb db n d) d session_user now reason), db2)

/-- The write-time invariant enforced by `validate`: no persisted
`Appreciation`/`Criticism` entry is a self-review. -/
def selfReviewFree (db : List Entry) : Prop :=
  ∀ e ∈ db, (e.type = "Appreciation" ∨ e.type = "Criticism") → e.user ≠ e.owner

lemma validate_ok_of_ne (e : Entry) (h1 : e.type ≠ "Appreciation")
    (h2 : e.type ≠ "Criticism") : validate e = Except.ok () := by
  unfold validate
  rw [if_neg]
  rintro ⟨h | h, -⟩
  exacts [h1 h, h2 h]

lemma validate_ok_elim (e : Entry) (h : validate e = Except.ok ()) :
    ¬((e.type = "Appreciation" ∨ e.type = "Criticism") ∧ e.user = e.owner) := by
  intro hc
  unfold validate at h
  rw [if_pos hc] at h
  simp at h

lemma insert_entry_of_validate (db : List Entry) (e : Entry)
    (h : validate e = Except.ok ()) :
    insert_entry db e = Except.ok (db ++ [e]) := by
  unfold insert_entry
  rw [h]

lemma insert_entry_ok_elim (db : List Entry) (e : Entry) (db2 : List Entry)
    (h : insert_entry db e = Except.ok db2) :
    db2 = db ++ [e] ∧ validate e = Except.ok () := by
  unfold insert_entry at h
  cases hv : validate e with
  | error m => rw [hv] at h; simp at h
  | ok u =>
      cases u
      rw [hv] at h
      simp only [Except.ok.injEq] at h
      exact ⟨h.symm, rfl⟩

lemma validate_new_review (db : List Entry) (o : String) (now : Nat)
    (u : String) (p : Int) (r : String) (dt dn : String) :
    validate (new_review_entry db o now u p r dt dn) = Except.ok () := rfl

lemma validate_new_revert (db1 : List Entry) (d : Entry) (o : String)
    (now : Nat) (r : String) :
    validate (new_revert_entry db1 d o now r) = Except.ok () := rfl

lemma create_rpl_eq (db : List Entry) (o : String) (now : Nat) (u : String)
    (p : Int) (r : String) (dt dn : String) :
    create_review_points_log db o now u p r dt dn =
      Except.ok (db ++ [new_review_entry db o now u p r dt dn],
        new_review_entry db o now u p r dt dn) := by
  unfold create_review_points_log
  rw [insert_entry_of_validate db _ (validate_new_review db o now u p r dt dn)]

lemma create_epl_ok_none (db : List Entry) (o : String) (now : Nat)
    (rd rn : String) (doc : LogFields) (db1 : List Entry)
    (h : create_energy_points_log db o now rd rn doc = Except.ok (db1, none)) :
    db1 = db := by
  unfold create_energy_points_log at h
  by_cases hex : log_exists db doc.user doc.rule rd rn = true
  · rw [if_pos hex] at h
    simp only [Except.ok.injEq, Prod.mk.injEq] at h
    exact h.1.symm
  · rw [if_neg hex] at h
    cases hins : insert_entry db (new_log_entry db o now rd rn doc) with
    | error m => rw [hins] at h; simp at h
    | ok db2 => rw [hins] at h; simp at h

lemma create_epl_ok_some (db : List Entry) (o : String) (now : Nat)
    (rd rn : String) (doc : LogFields) (db1 : List Entry) (e : Entry)
    (h : create_energy_points_log db o now rd rn doc = Except.ok (db1, some e)) :
    e = new_log_entry db o now rd rn doc ∧ db1 = db ++ [e] ∧
      log_exists db doc.user doc.rule rd rn = false := by
  unfold create_energy_points_log at h
  by_cases hex : log_exists db doc.user doc.rule rd rn = true
  · rw [if_pos hex] at h
    simp at h
  · rw [if_neg hex] at h
    cases hins : insert_entry db (new_log_entry db o now rd rn doc) with
    | error m => rw [hins] at h; simp at h
    | ok db2 =>
        rw [hins] at h
        simp only [Except.ok.injEq, Prod.mk.injEq, Option.some.injEq] at h
        obtain ⟨hdb, he⟩ := h
        have hi := (insert_entry_ok_elim db _ db2 hins).1
        refine ⟨he.symm, ?_, by simpa using hex⟩
        rw [← hdb, hi, ← he]

lemma find?_updDb (db : List Entry) (n : String) (d : Entry)
    (h : db.find? (fun e => e.name == n) = some d) :
    (updDb db n d).find? (fun e => e.name == n) =
      some { d with reverted := true } := by
  have hd := List.find?_some h
  have hb : (({ d with reverted := true } : Entry).name == n) = true := hd
  unfold updDb
  revert h
  induction db with
  | nil => intro h; simp at h
  | cons a l ih =>
      intro h
      by_cases hp : (a.name == n) = true
      · simp only [List.map_cons, if_pos hp, List.find?_cons, hb]
      · have hp' : (a.name == n) = false := by simpa using hp
        simp only [List.map_cons, if_neg hp]
        rw [List.find?_cons] at h ⊢
        simp only [hp'] at h ⊢
        exact ih h

lemma revert_auto_eq (db : List Entry) (su : String) (now : Nat)
    (n r : String) (d : Entry)
    (h : db.find? (fun e => e.name == n) = some d) (ha : d.type = "Auto") :
    revert db su now n r =
      (RevertResult.ok (new_revert_entry (updDb db n d) d su now r),
        updDb db n d ++ [new_revert_entry (updDb db n d) d su now r]) := by
  simp only [revert, h]
  rw [if_neg (fun hc => hc ha)]
  rw [insert_entry_of_validate _ _ (validate_new_revert (updDb db n d) d su now r)]

lemma countKey_append_single (db : List Entry) (e : Entry) (u : String)
    (r : Option String) (rd rn : String) :
    countKey (db ++ [e]) u r rd rn =
      countKey db u r rd rn + (if matchKey u r rd rn e then 1 else 0) := by
  unfold countKey
  rw [List.filter_append, List.length_append]
  congr 1
  by_cases hm : matchKey u r rd rn e = true
  · simp [hm]
  · simp [hm]

lemma log_exists_false_count (db : List Entry) (u : String)
    (r : Option String) (rd rn : String)
    (h : log_exists db u r rd rn = false) :
    countKey db u r rd rn = 0 := by
  unfold log_exists at h
  rw [List.any_eq_false] at h
  unfold countKey
  rw [List.length_eq_zero, List.filter_eq_nil_iff]
  exact h

lemma matchKey_new_log_entry (db : List Entry) (o : String) (now : Nat)
    (rd rn : String) (doc : LogFields) :
    matchKey doc.user doc.rule rd rn (new_log_entry db o now rd rn doc) = true := by
  simp [matchKey, new_log_entry]

lemma agg_none_eq (db : List Entry) :
    get_user_energy_and_review_points_list db none =
      List.insertionSort totalsGE
        (((db.map Entry.user).dedup).map (totals_for db)) := rfl

lemma totals_for_user (rows : List Entry) (u : String) :
    (totals_for rows u).user = u := rfl

lemma cond_sum_eq (l : List Entry) (q p : Entry → Bool) (f g : Entry → Int)
    (h1 : ∀ e, p e = true → f e = g e) (h0 : ∀ e, p e = false → f e = 0) :
    ((l.filter q).map f).sum = ((l.filter (fun e => q e && p e)).map g).sum := by
  induction l with
  | nil => rfl
  | cons a l ih =>
      by_cases hq : q a = true
      · by_cases hp : p a = true
        · rw [List.filter_cons_of_pos hq, List.filter_cons_of_pos (by simp [hq, hp])]
          simp [List.sum_cons, h1 a hp, ih]
        · have hp' : p a = false := by simpa using hp
          rw [List.filter_cons_of_pos hq, List.filter_cons_of_neg (by simp [hq, hp'])]
          simp [List.sum_cons, h0 a hp', ih]
      · have hq' : q a = false := by simpa using hq
        rw [List.filter_cons_of_neg (by simp [hq']), List.filter_cons_of_neg (by simp [hq'])]
        exact ih

lemma filter_map_totals_of_not_mem (rows : List Entry) (us : List String)
    (u : String) (hu : u ∉ us) :
    (us.map (totals_for rows)).filter (fun t => t.user == u) = [] := by
  induction us with
  | nil => rfl
  | cons v vs ih =>
      rw [List.mem_cons, not_or] at hu
      rw [List.map_cons, List.filter_cons_of_neg]
      · exact ih hu.2
      · simp only [totals_for_user, beq_iff_eq]
        exact fun hvu => hu.1 hvu.symm

lemma filter_map_totals_of_mem (rows : List Entry) (us : List String)
    (u : String) (hn : us.Nodup) (hu : u ∈ us) :
    (us.map (totals_for rows)).filter (fun t => t.user == u) =
      [totals_for rows u] := by
  induction us with
  | nil => cases hu
  | cons v vs ih =>
      rw [List.nodup_cons] at hn
      rcases List.mem_cons.mp hu with h | h
      · subst h
        rw [List.map_cons, List.filter_cons_of_pos (by simp [totals_for_user])]
        rw [filter_map_totals_of_not_mem rows vs u hn.1]
      · have hvu : v ≠ u := fun hv => hn.1 (hv ▸ h)
        rw [List.map_cons, List.filter_cons_of_neg]
        · exact ih hn.2 h
        · simp only [totals_for_user, beq_iff_eq]
          exact hvu

lemma get_alert_dict_auto (e : Entry) (h : e.type = "Auto") :
    get_alert_dict e =
      some { message := "You gained " ++ bold (toString e.points) ++ " points",
             indicator := "green" } := by
  unfold get_alert_dict
  rw [if_pos h]

lemma get_alert_dict_appr (e : Entry) (h : e.type = "Appreciation") :
    get_alert_dict e =
      some { message := get_fullname e.owner ++ " appreciated your work on " ++
               get_desk_link e.reference_doctype e.reference_name ++ " with " ++
               bold (toString e.points) ++ " points",
             indicator := "green" } := by
  unfold get_alert_dict
  rw [if_neg (by rw [h]; decide), if_pos h]

lemma get_alert_dict_crit (e : Entry) (h : e.type = "Criticism") :
    get_alert_dict e =
      some { message := get_fullname e.owner ++ " criticized your work on " ++
               get_desk_link e.reference_doctype e.reference_name ++ " with " ++
               bold (toString e.points) ++ " points",
             indicator := "red" } := by
  unfold get_alert_dict
  rw [if_neg (by rw [h]; decide), if_neg (by rw [h]; decide), if_pos h]

lemma get_alert_dict_revert (e : Entry) (h : e.type = "Revert") :
    get_alert_dict e =
      some { message := get_fullname e.owner ++ " reverted your points on " ++
               get_desk_link e.reference_doctype e.reference_name,
             indicator := "red" } := by
  unfold get_alert_dict
  rw [if_neg (by rw [h]; decide), if_neg (by rw [h]; decide),
    if_neg (by rw [h]; decide), if_pos h]

lemma get_alert_dict_review (e : Entry) (h : e.type = "Review") :
    get_alert_dict e = none := by
  unfold get_alert_dict
  rw [if_neg (by rw [h]; decide), if_neg (by rw [h]; decide),
    if_neg (by rw [h]; decide), if_neg (by rw [h]; decide)]

lemma send_review_mail_ac (e : Entry) (a : Alert)
    (h : e.type = "Appreciation" ∨ e.type = "Criticism") :
    send_review_mail e a =
      some { recipients := [e.user],
             subject := if 0 < e.points then "You gained some energy points"
               else "You lost some energy points",
             message := a.message ++ "<p>" ++ e.reason ++ "</p>",
             header_indicator := a.indicator } := by
  unfold send_review_mail
  rw [if_pos h]

lemma send_review_mail_skip (e : Entry) (a : Alert)
    (h1 : e.type ≠ "Appreciation") (h2 : e.type ≠ "Criticism") :
    send_review_mail e a = none := by
  unfold send_review_mail
  rw [if_neg]
  rintro (hc | hc)
  exacts [h1 hc, h2 hc]

/-- Fixture: an automated entry granting 10 points to user U. -/
def gAuto : Entry :=
  { name := "g1", user := "U", owner := "Administrator", type := "Auto",
    points := 10, reason := "", reference_doctype := "Task",
    reference_name := "T1", rule := some "rule1", reverted := false,
    revert_of := none, creation := 1 }

/-- Fixture: an appreciation of 5 points for user U by user A. -/
def gAppr : Entry :=
  { name := "g2", user := "U", owner := "A", type := "Appreciation",
    points := 5, reason := "nice", reference_doctype := "Task",
    reference_name := "T1", rule := none, reverted := false,
    revert_of := none, creation := 2 }

/-- Fixture: a review debit of -3 points against user U. -/
def gRev1 : Entry :=
  { name := "g3", user := "U", owner := "A", type := "Review",
    points := -3, reason := "spent", reference_doctype := "Task",
    reference_name := "T1", rule := none, reverted := false,
    revert_of := none, creation := 3 }

/-- Fixture: a second review debit of -3 points against user U. -/
def gRev2 : Entry :=
  { name := "g4", user := "U", owner := "A", type := "Review",
    points := -3, reason := "spent", reference_doctype := "Task",
    reference_name := "T2", rule := none, reverted := false,
    revert_of := none, creation := 4 }

/-- Fixture ledger for the aggregate example of the spec (P5). -/
def gLedger : List Entry := [gAuto, gAppr, gRev1, gRev2]

/-- Fixture: a review-point grant of 5 to alice. -/
def wGrant : Entry :=
  { name := "w1", user := "alice", owner := "Administrator", type := "Review",
    points := 5, reason := "seed", reference_doctype := "",
    reference_name := "", rule := none, reverted := false,
    revert_of := none, creation := 1 }

/-- Fixture: a self-review attempt (user equals owner). -/
def wSelf : Entry :=
  { name := "w2", user := "A", owner := "A", type := "Appreciation",
    points := 4, reason := "me", reference_doctype := "Task",
    reference_name := "T1", rule := none, reverted := false,
    revert_of := none, creation := 5 }

/-- Claim C3: `revert` on an entry whose type is not `Auto` fails with the
user-facing error and writes nothing; on an `Auto` entry it sets
`reverted = true` on the original, inserts exactly one new entry of type
`Revert` with `points = -original.points`, the same user and reference
fields and `revert_of = original.name`, and returns that new entry. -/
theorem C3_revert_behavior (db : List Entry) (su : String) (now : Nat)
    (n reason : String) (d : Entry)
    (h : db.find? (fun e => e.name == n) = some d) :
    (d.type ≠ "Auto" →
      revert db su now n reason =
        (RevertResult.threw "This document cannot be reverted", db)) ∧
    (d.type = "Auto" →
      revert db su now n reason =
        (RevertResult.ok (new_revert_entry (updDb db n d) d su now reason),
          updDb db n d ++ [new_revert_entry (updDb db n d) d su now reason]) ∧
      (updDb db n d).find? (fun e => e.name == n) =
        some { d with reverted := true } ∧
      (new_revert_entry (updDb db n d) d su now reason).type = "Revert" ∧
      (new_revert_entry (updDb db n d) d su now reason).points = -d.points ∧
      (new_revert_entry (updDb db n d) d su now reason).user = d.user ∧
      (new_revert_entry (updDb db n d) d su now reason).reference_doctype =
        d.reference_doctype ∧
      (new_revert_entry (updDb db n d) d su now reason).reference_name =
        d.reference_name ∧
      (new_revert_entry (updDb db n d) d su now reason).revert_of =
        some d.name) := by
  constructor
  · intro ha
    simp only [revert, h]
    rw [if_pos ha]
  · intro ha
    exact ⟨revert_auto_eq db su now n reason d h ha, find?_updDb db n d h,
      rfl, rfl, rfl, rfl, rfl, rfl⟩

/-- Witness for C3 at a concrete ledger: reverting the `Auto` entry `g1`. -/
theorem C3_revert_behavior_witness :
    [gAuto].find? (fun e => e.name == "g1") = some gAuto ∧
    revert [gAuto] "Administrator" 7 "g1" "mistake" =
      (RevertResult.ok
          (new_revert_entry (updDb [gAuto] "g1" gAuto) gAuto "Administrator" 7 "mistake"),
        updDb [gAuto] "g1" gAuto ++
          [new_revert_entry (updDb [gAuto] "g1" gAuto) gAuto "Administrator" 7 "mistake"]) :=
  ⟨by decide,
    ((C3_revert_behavior [gAuto] "Administrator" 7 "g1" "mistake" gAuto
      (by decide)).2 rfl).1⟩

/-- Claim C4: an attempted insertion of an `Appreciation` or `Criticism`
entry with `user = owner` fails with the validation error and nothing is
written; consequently insertion preserves the invariant that every persisted
`Appreciation`/`Criticism` entry has `user ≠ owner`. -/
theorem C4_no_self_review (db : List Entry) (e : Entry) :
    ((e.type = "Appreciation" ∨ e.type = "Criticism") → e.user = e.owner →
      insert_entry db e =
        Except.error "You cannot give review points to yourself") ∧
    (∀ db2, insert_entry db e = Except.ok db2 →
      db2 = db ++ [e] ∧ (selfReviewFree db → selfReviewFree db2)) := by
  constructor
  · intro hac heq
    unfold insert_entry validate
    rw [if_pos ⟨hac, heq⟩]
  · intro db2 hok
    obtain ⟨hdb, hv⟩ := insert_entry_ok_elim db e db2 hok
    refine ⟨hdb, fun hfree x hx hacx => ?_⟩
    rw [hdb] at hx
    rcases List.mem_append.mp hx with hx | hx
    · exact hfree x hx hacx
    · have hxe : x = e := by simpa using hx
      subst hxe
      exact fun heq => validate_ok_elim x hv ⟨hacx, heq⟩

/-- Witness for C4: the self-appreciation fixture is rejected. -/
theorem C4_no_self_review_witness :
    insert_entry [] wSelf =
      Except.error "You cannot give review points to yourself" :=
  (C4_no_self_review [] wSelf).1 (Or.inl rfl) rfl

/-- Claim C5: `create_energy_points_log` is idempotent on the natural key
`(user, rule, reference_doctype, reference_name)`: when a matching entry
already exists the call writes nothing and returns nothing, otherwise (and
when validation passes) it appends exactly the one new entry carrying that
key and returns it; consequently a successful call never raises the number
of entries with the key above one. -/
theorem C5_create_idempotent (db : List Entry) (owner : String) (now : Nat)
    (rd rn : String) (doc : LogFields) :
    (log_exists db doc.user doc.rule rd rn = true →
      create_energy_points_log db owner now rd rn doc = Except.ok (db, none)) ∧
    (log_exists db doc.user doc.rule rd rn = false →
      validate (new_log_entry db owner now rd rn doc) = Except.ok () →
      create_energy_points_log db owner now rd rn doc =
        Except.ok (db ++ [new_log_entry db owner now rd rn doc],
          some (new_log_entry db owner now rd rn doc)) ∧
      (new_log_entry db owner now rd rn doc).user = doc.user ∧
      (new_log_entry db owner now rd rn doc).rule = doc.rule ∧
      (new_log_entry db owner now rd rn doc).reference_doctype = rd ∧
      (new_log_entry db owner now rd rn doc).reference_name = rn) ∧
    (∀ db2 res,
      create_energy_points_log db owner now rd rn doc = Except.ok (db2, res) →
      countKey db doc.user doc.rule rd rn ≤ 1 →
      countKey db2 doc.user doc.rule rd rn ≤ 1) := by
  refine ⟨fun hex => ?_, fun hex hv => ?_, fun db2 res hok hle => ?_⟩
  · unfold create_energy_points_log
    rw [if_pos hex]
  · refine ⟨?_, rfl, rfl, rfl, rfl⟩
    unfold create_energy_points_log
    rw [if_neg (by simp [hex]), insert_entry_of_validate db _ hv]
  · cases res with
    | none => rw [create_epl_ok_none db owner now rd rn doc db2 hok]; exact hle
    | some e =>
        obtain ⟨he, hdb, hex⟩ := create_epl_ok_some db owner now rd rn doc db2 e hok
        rw [hdb, countKey_append_single]
        rw [log_exists_false_count db doc.user doc.rule rd rn hex]
        subst he
        rw [if_pos (matchKey_new_log_entry db owner now rd rn doc)]

/-- Witness for C5 on the empty ledger: the key is fresh, validation passes
and exactly the one new entry is created and returned. -/
theorem C5_create_idempotent_witness :
    log_exists [] "U" (some "rule1") "Task" "T1" = false ∧
    validate (new_log_entry [] "Administrator" 0 "Task" "T1"
      { user := "U", rule := some "rule1", type := "Auto", reason := "",
        points := 10 }) = Except.ok () ∧
    create_energy_points_log [] "Administrator" 0 "Task" "T1"
        { user := "U", rule := some "rule1", type := "Auto", reason := "",
          points := 10 } =
      Except.ok ([new_log_entry [] "Administrator" 0 "Task" "T1"
          { user := "U", rule := some "rule1", type := "Auto", reason := "",
            points := 10 }],
        some (new_log_entry [] "Administrator" 0 "Task" "T1"
          { user := "U", rule := some "rule1", type := "Auto", reason := "",
            points := 10 })) :=
  ⟨rfl, rfl,
    ((C5_create_idempotent [] "Administrator" 0 "Task" "T1"
      { user := "U", rule := some "rule1", type := "Auto", reason := "",
        points := 10 }).2.1 rfl rfl).1⟩

/-- Claim C10: `revert` never inspects the `reverted` flag, so it is not
idempotent: on an `Auto` entry a second `revert` of the same name succeeds
again and inserts a second compensating `Revert` entry with the same
`-original.points`, leaving the ledger two entries longer. -/
theorem C10_revert_not_idempotent (db : List Entry) (su : String)
    (t1 t2 : Nat) (n r1 r2 : String) (d : Entry)
    (h : db.find? (fun e => e.name == n) = some d) (ha : d.type = "Auto") :
    ∃ l1 l2,
      (revert db su t1 n r1).1 = RevertResult.ok l1 ∧
      (revert (revert db su t1 n r1).2 su t2 n r2).1 = RevertResult.ok l2 ∧
      l1.type = "Revert" ∧ l2.type = "Revert" ∧
      l1.points = -d.points ∧ l2.points = -d.points ∧
      (revert (revert db su t1 n r1).2 su t2 n r2).2.length =
        db.length + 2 := by
  have h1 := revert_auto_eq db su t1 n r1 d h ha
  have hfind1 := find?_updDb db n d h
  have hfind2 : ((updDb db n d) ++
        [new_revert_entry (updDb db n d) d su t1 r1]).find?
      (fun e => e.name == n) = some ({ d with reverted := true } : Entry) := by
    rw [List.find?_append, hfind1]
    rfl
  have ha2 : ({ d with reverted := true } : Entry).type = "Auto" := ha
  have h2 := revert_auto_eq ((updDb db n d) ++
      [new_revert_entry (updDb db n d) d su t1 r1]) su t2 n r2
    ({ d with reverted := true } : Entry) hfind2 ha2
  refine ⟨new_revert_entry (updDb db n d) d su t1 r1,
    new_revert_entry
      (updDb ((updDb db n d) ++ [new_revert_entry (updDb db n d) d su t1 r1])
        n ({ d with reverted := true } : Entry))
      ({ d with reverted := true } : Entry) su t2 r2, ?_, ?_, rfl, rfl, rfl, rfl, ?_⟩
  · rw [h1]
  · rw [h1]
    rw [h2]
  · rw [h1]
    rw [h2]
    simp [updDb, List.length_append, List.length_map]

/-- Witness for C10: reverting the fixture `Auto` entry twice succeeds twice
and grows the one-entry ledger to three entries. -/
theorem C10_revert_not_idempotent_witness :
    [gAuto].find? (fun e => e.name == "g1") = some gAuto ∧
    gAuto.type = "Auto" ∧
    ∃ l1 l2,
      (revert [gAuto] "Administrator" 7 "g1" "first").1 = RevertResult.ok l1 ∧
      (revert (revert [gAuto] "Administrator" 7 "g1" "first").2
          "Administrator" 8 "g1" "second").1 = RevertResult.ok l2 ∧
      l1.type = "Revert" ∧ l2.type = "Revert" ∧
      l1.points = -gAuto.points ∧ l2.points = -gAuto.points ∧
      (revert (revert [gAuto] "Administrator" 7 "g1" "first").2
          "Administrator" 8 "g1" "second").2.length = [gAuto].length + 2 :=
  ⟨by decide, rfl,
    C10_revert_not_idempotent [gAuto] "Administrator" 7 8 "g1" "first"
      "second" gAuto (by decide) rfl⟩

/-- Claim C1: `review` writes exactly two linked ledger entries (the
target-facing entry and the reviewer debit referencing it) or writes
nothing, never exactly one; and when `abs(points)` exceeds the caller's
`review_points` balance it only emits the warning, writes nothing and
returns no result. -/
theorem C1_review_two_or_zero (db : List Entry) (su : String) (now : Nat)
    (doc : RefDoc) (points : Int) (to_user reason review_type : String) :
    ((review db su now doc points to_user reason review_type).2 = db ∨
      ∃ target debit,
        review db su now doc points to_user reason review_type =
          (ReviewResult.ok target, db ++ [target, debit]) ∧
        debit.type = "Review" ∧ debit.user = su ∧
        debit.points = -(Int.natAbs points : Int) ∧
        debit.reference_doctype = "Energy Point Log" ∧
        debit.reference_name = target.name) ∧
    (∀ row, get_energy_points db su = some row →
      row.review_points < (Int.natAbs points : Int) →
      review db su now doc points to_user reason review_type =
        (ReviewResult.warned, db)) := by
  constructor
  · cases hg : get_energy_points db su with
    | none => left; simp only [review, hg]
    | some row =>
        by_cases hb : row.review_points < (Int.natAbs points : Int)
        · left
          simp only [review, hg]
          rw [if_pos hb]
        · rcases hc : create_energy_points_log db su now doc.doctype doc.name
              { user := to_user, rule := none, type := review_type,
                reason := reason,
                points := if review_type = "Appreciation"
                  then (Int.natAbs points : Int)
                  else -(Int.natAbs points : Int) } with m | pr
          · left
            simp only [review, hg]
            rw [if_neg hb]
            simp only [hc]
          · obtain ⟨db1, res⟩ := pr
            cases res with
            | none =>
                left
                simp only [review, hg]
                rw [if_neg hb]
                simp only [hc]
                exact create_epl_ok_none db su now doc.doctype doc.name _ db1 hc
            | some target =>
                right
                obtain ⟨hte, hdb1, hex⟩ :=
                  create_epl_ok_some db su now doc.doctype doc.name _ db1 target hc
                subst hdb1
                refine ⟨target,
                  new_review_entry (db ++ [target]) su now su
                    (-(Int.natAbs points : Int)) reason "Energy Point Log"
                    target.name, ?_, rfl, rfl, rfl, rfl, rfl⟩
                simp only [review, hg]
                rw [if_neg hb]
                simp only [hc]
                simp only [create_rpl_eq]
                rw [List.append_assoc]
                exact rfl
  · intro row hrow hlt
    simp only [review, hrow]
    rw [if_pos hlt]

/-- Witness for C1: alice holds 5 review points and asks to spend 8; the
call warns and the ledger is unchanged. -/
theorem C1_review_two_or_zero_witness :
    get_energy_points [wGrant] "alice" =
      some { energy_points := 0, review_points := 5, given_points := 0,
             user := "alice" } ∧
    ({ energy_points := 0, review_points := 5, given_points := 0,
       user := "alice" } : Totals).review_points < (Int.natAbs 8 : Int) ∧
    review [wGrant] "alice" 9 { doctype := "Task", name := "T1" } 8 "bob"
        "nice" "Appreciation" = (ReviewResult.warned, [wGrant]) :=
  ⟨by decide, by decide,
    (C1_review_two_or_zero [wGrant] "alice" 9
        { doctype := "Task", name := "T1" } 8 "bob" "nice" "Appreciation").2
      { energy_points := 0, review_points := 5, given_points := 0,
        user := "alice" } (by decide) (by decide)⟩

/-- Claim C9: `review` presupposes that the caller has at least one ledger
entry: with no entries `get_energy_points` yields no row (its
`review_points` is Python `None`) and the balance comparison raises a
`TypeError` with no writes and no warning; the insufficient-balance warning
is only reachable when the caller's aggregate row exists. -/
theorem C9_review_requires_row (db : List Entry) (su : String) (now : Nat)
    (doc : RefDoc) (points : Int) (to_user reason review_type : String) :
    ((∀ e ∈ db, e.user ≠ su) →
      get_energy_points db su = none ∧
      review db su now doc points to_user reason review_type =
        (ReviewResult.typeError, db)) ∧
    ((review db su now doc points to_user reason review_type).1 =
        ReviewResult.warned →
      ∃ row, get_energy_points db su = some row ∧
        row.review_points < (Int.natAbs points : Int)) := by
  constructor
  · intro hno
    have hfil : db.filter (fun e => e.user == su) = [] := by
      rw [List.filter_eq_nil_iff]
      intro a ha
      simp only [beq_iff_eq]
      exact hno a ha
    have hg : get_energy_points db su = none := by
      unfold get_energy_points get_user_energy_and_review_points_list
      simp [hfil]
    exact ⟨hg, by simp only [review, hg]⟩
  · intro hw
    cases hg : get_energy_points db su with
    | none =>
        simp only [review, hg] at hw
        exact ReviewResult.noConfusion hw
    | some row =>
        by_cases hb : row.review_points < (Int.natAbs points : Int)
        · exact ⟨row, rfl, hb⟩
        · exfalso
          simp only [review, hg] at hw
          rw [if_neg hb] at hw
          rcases hc : create_energy_points_log db su now doc.doctype doc.name
              { user := to_user, rule := none, type := review_type,
                reason := reason,
                points := if review_type = "Appreciation"
                  then (Int.natAbs points : Int)
                  else -(Int.natAbs points : Int) } with m | pr
          · simp only [hc] at hw
            exact ReviewResult.noConfusion hw
          · obtain ⟨db1, res⟩ := pr
            cases res with
            | none =>
                simp only [hc] at hw
                exact ReviewResult.noConfusion hw
            | some target =>
                simp only [hc, create_rpl_eq] at hw
                exact ReviewResult.noConfusion hw

/-- Witness for C9: on the empty ledger a review attempt hits the
`TypeError` path. -/
theorem C9_review_requires_row_witness :
    (∀ e ∈ ([] : List Entry), e.user ≠ "alice") ∧
    get_energy_points [] "alice" = none ∧
    review [] "alice" 3 { doctype := "Task", name := "T1" } 4 "bob" "r"
      "Appreciation" = (ReviewResult.typeError, []) :=
  ⟨by simp,
    (C9_review_requires_row [] "alice" 3 { doctype := "Task", name := "T1" }
      4 "bob" "r" "Appreciation").1 (by simp)⟩

/-- Claim C8: after an insertion the notifier is silent for `Review`
entries; for `Appreciation`/`Criticism` it pushes a green/red alert and
emails the affected user with the gained/lost subject chosen by the sign of
`points` and body equal to the alert message plus the reason; for `Auto` and
`Revert` it pushes a green/red alert respectively but sends no email. -/
theorem C8_notifier_by_type (e : Entry) :
    (e.type = "Review" →
      after_insert e =
        { alert := none, email := none, cache_hdel := e.user,
          update_points_broadcast := true }) ∧
    ((e.type = "Appreciation" ∨ e.type = "Criticism") →
      ∃ a em,
        after_insert e =
          { alert := some a, email := some em,
            cache_hdel := e.user, update_points_broadcast := true } ∧
        a.indicator = (if e.type = "Appreciation" then "green" else "red") ∧
        em.recipients = [e.user] ∧
        em.subject = (if 0 < e.points then "You gained some energy points"
          else "You lost some energy points") ∧
        em.message = a.message ++ "<p>" ++ e.reason ++ "</p>") ∧
    ((e.type = "Auto" ∨ e.type = "Revert") →
      ∃ a,
        after_insert e =
          { alert := some a, email := none,
            cache_hdel := e.user, update_points_broadcast := true } ∧
        a.indicator = (if e.type = "Auto" then "green" else "red")) := by
  refine ⟨fun h => ?_, fun h => ?_, fun h => ?_⟩
  · unfold after_insert
    rw [get_alert_dict_review e h]
  · rcases h with h | h
    · refine
        ⟨{ message := get_fullname e.owner ++ " appreciated your work on " ++
             get_desk_link e.reference_doctype e.reference_name ++ " with " ++
             bold (toString e.points) ++ " points",
           indicator := "green" },
         { recipients := [e.user],
           subject := if 0 < e.points then "You gained some energy points"
             else "You lost some energy points",
           message := (get_fullname e.owner ++ " appreciated your work on " ++
             get_desk_link e.reference_doctype e.reference_name ++ " with " ++
             bold (toString e.points) ++ " points") ++ "<p>" ++ e.reason ++ "</p>",
           header_indicator := "green" }, ?_, by rw [if_pos h], rfl, rfl, rfl⟩
      unfold after_insert
      simp only [get_alert_dict_appr e h]
      rw [send_review_mail_ac e _ (Or.inl h)]
    · refine
        ⟨{ message := get_fullname e.owner ++ " criticized your work on " ++
             get_desk_link e.reference_doctype e.reference_name ++ " with " ++
             bold (toString e.points) ++ " points",
           indicator := "red" },
         { recipients := [e.user],
           subject := if 0 < e.points then "You gained some energy points"
             else "You lost some energy points",
           message := (get_fullname e.owner ++ " criticized your work on " ++
             get_desk_link e.reference_doctype e.reference_name ++ " with " ++
             bold (toString e.points) ++ " points") ++ "<p>" ++ e.reason ++ "</p>",
           header_indicator := "red" }, ?_,
         by rw [if_neg (by rw [h]; decide)], rfl, rfl, rfl⟩
      unfold after_insert
      simp only [get_alert_dict_crit e h]
      rw [send_review_mail_ac e _ (Or.inr h)]
  · rcases h with h | h
    · refine
        ⟨{ message := "You gained " ++ bold (toString e.points) ++ " points",
           indicator := "green" }, ?_, by rw [if_pos h]⟩
      unfold after_insert
      simp only [get_alert_dict_auto e h]
      rw [send_review_mail_skip e _ (by rw [h]; decide) (by rw [h]; decide)]
    · refine
        ⟨{ message := get_fullname e.owner ++ " reverted your points on " ++
             get_desk_link e.reference_doctype e.reference_name,
           indicator := "red" }, ?_, by rw [if_neg (by rw [h]; decide)]⟩
      unfold after_insert
      simp only [get_alert_dict_revert e h]
      rw [send_review_mail_skip e _ (by rw [h]; decide) (by rw [h]; decide)]

/-- Witness for C8: the notifier output for the fixture appreciation
entry. -/
theorem C8_notifier_by_type_witness :
    ∃ a em,
      after_insert gAppr =
        { alert := some a, email := some em,
          cache_hdel := gAppr.user, update_points_broadcast := true } ∧
      a.indicator = (if gAppr.type = "Appreciation" then "green" else "red") ∧
      em.recipients = [gAppr.user] ∧
      em.subject = (if 0 < gAppr.points then "You gained some energy points"
        else "You lost some energy points") ∧
      em.message = a.message ++ "<p>" ++ gAppr.reason ++ "</p>" :=
  (C8_notifier_by_type gAppr).2.1 (Or.inl rfl)

/-- Claim C6: for every ledger and every user occurring in it, the
aggregate (no filters) contains exactly one row for that user, whose
`energy_points` is the sum of the user's non-`Review` points,
`review_points` the sum of the user's `Review` points, and `given_points`
the sum of `abs(points)` over the user's negative `Review` entries; and the
rows are ordered descending by `energy_points`. -/
theorem C6_aggregator_exact (db : List Entry) (u : String)
    (hu : u ∈ db.map Entry.user) :
    (∃ t, (get_user_energy_and_review_points_list db none).filter
        (fun x => x.user == u) = [t] ∧
      t.user = u ∧
      t.energy_points =
        ((db.filter (fun e => e.user == u && !(e.type == "Review"))).map
          Entry.points).sum ∧
      t.review_points =
        ((db.filter (fun e => e.user == u && e.type == "Review")).map
          Entry.points).sum ∧
      t.given_points =
        ((db.filter (fun e =>
          e.user == u && (e.type == "Review" && decide (e.points < 0)))).map
            (fun e => (e.points.natAbs : Int))).sum) ∧
    List.Sorted totalsGE (get_user_energy_and_review_points_list db none) := by
  constructor
  · refine ⟨totals_for db u, ?_, rfl, ?_, ?_, ?_⟩
    · have hperm :
          List.Perm
            ((get_user_energy_and_review_points_list db none).filter
              (fun x => x.user == u))
            ((((db.map Entry.user).dedup).map (totals_for db)).filter
              (fun x => x.user == u)) := by
        rw [agg_none_eq]
        exact (List.perm_insertionSort totalsGE _).filter _
      rw [filter_map_totals_of_mem db _ u (List.nodup_dedup _)
        (List.mem_dedup.mpr hu)] at hperm
      exact List.perm_singleton.mp hperm
    · refine cond_sum_eq db (fun e => e.user == u)
        (fun e => !(e.type == "Review")) entry_energy Entry.points ?_ ?_
      · intro e he
        have hne : e.type ≠ "Review" := by simpa using he
        unfold entry_energy
        rw [if_pos hne]
      · intro e he
        have heq : e.type = "Review" := by simpa using he
        unfold entry_energy
        rw [if_neg (fun hc => hc heq)]
    · refine cond_sum_eq db (fun e => e.user == u)
        (fun e => e.type == "Review") entry_review Entry.points ?_ ?_
      · intro e he
        have heq : e.type = "Review" := by simpa using he
        unfold entry_review
        rw [if_pos heq]
      · intro e he
        have hne : e.type ≠ "Review" := by simpa using he
        unfold entry_review
        rw [if_neg hne]
    · refine cond_sum_eq db (fun e => e.user == u)
        (fun e => e.type == "Review" && decide (e.points < 0)) entry_given
        (fun e => (e.points.natAbs : Int)) ?_ ?_
      · intro e he
        rw [Bool.and_eq_true] at he
        have heq : e.type = "Review" := by simpa using he.1
        have hlt : e.points < 0 := by simpa using he.2
        unfold entry_given
        rw [if_pos ⟨heq, hlt⟩]
      · intro e he
        unfold entry_given
        rw [if_neg]
        intro hc
        rw [Bool.and_eq_false_iff] at he
        rcases he with he | he
        · exact absurd hc.1 (by simpa using he)
        · exact absurd hc.2 (by simpa using he)
  · rw [agg_none_eq]
    exact List.sorted_insertionSort totalsGE _

/-- Witness for C6 on the P5 fixture ledger `[+10 Auto, +5 Appreciation,
-3 Review, -3 Review]` for user U; the row evaluates to
`energy_points = 15`, `review_points = -6`, `given_points = 6`. -/
theorem C6_aggregator_exact_witness :
    ("U" ∈ gLedger.map Entry.user) ∧
    ((∃ t, (get_user_energy_and_review_points_list gLedger none).filter
        (fun x => x.user == "U") = [t] ∧
      t.user = "U" ∧
      t.energy_points =
        ((gLedger.filter (fun e => e.user == "U" && !(e.type == "Review"))).map
          Entry.points).sum ∧
      t.review_points =
        ((gLedger.filter (fun e => e.user == "U" && e.type == "Review")).map
          Entry.points).sum ∧
      t.given_points =
        ((gLedger.filter (fun e =>
          e.user == "U" && (e.type == "Review" && decide (e.points < 0)))).map
            (fun e => (e.points.natAbs : Int))).sum) ∧
      List.Sorted totalsGE
        (get_user_energy_and_review_points_list gLedger none)) ∧
    (get_user_energy_and_review_points_list gLedger none).filter
        (fun x => x.user == "U") =
      [{ energy_points := 15, review_points := -6, given_points := 6,
         user := "U" }] :=
  ⟨by decide, C6_aggregator_exact gLedger "U" (by decide), by decide⟩

/-- Claim C2: for a call with a fromDate filter, only entries with
`creation >= fromDate` are included, and a user filter combines with it by
logical AND.  The code instead appends the SQL `conditions` string itself to
the bound parameter list (`values.append(conditions)` on line 119), so the
value compared against `creation` is the constant conditions text and the
supplied fromDate never reaches the query: for every user `u` and every
fromDate `d` the bound values are `u` followed by the conditions string,
independent of `d`. -/
theorem C2_from_date_value_misbound (u d : String) :
    (buildConditions (some u) (some d)).1 =
        "WHERE `user` = %sAND `creation` >= %s" ∧
    (buildConditions (some u) (some d)).2 =
        [u, "WHERE `user` = %sAND `creation` >= %s"] := by
  constructor <;> rfl

/-- Claim C7: `send_summary` is claimed to aggregate over the trailing 7/30
day window.  Because of the parameter slip in
`get_user_energy_and_review_points`, the single bound value of the summary
query is the conditions string itself; it is the same for every `today` and
every `timespan`, so the computed window start never reaches the query. -/
theorem C7_summary_window_never_bound (today : Int) (timespan : String) :
    (send_summary_sql today timespan).1 = "WHERE `creation` >= %s" ∧
    (send_summary_sql today timespan).2 = ["WHERE `creation` >= %s"] := by
  constructor <;> rfl

end EnergyPointLog
